import Mathlib

/-!
# Verification of the digital-chat backend core

Shallow embedding of the Python backend of `Urology-AI/digital-chat`
(`backend/safety.py`, `backend/chat.py`, `backend/settings.py`,
`backend/store.py`) together with proofs about its specified behaviour.

Modelling conventions:
* Python strings are Lean `String`s / `List Char`; matching is modelled over
  ASCII (the pattern literals of the repository are all ASCII).
* Python floats are modelled as `ℚ` — the float operations the code performs
  on them (`min`, `max`, comparisons against decimal literals) are exact, so
  no rounding behaviour is lost.
* Python ints are `ℤ`.
* The regular expressions of `safety.py` all have the shape
  `\b(lit₁|lit₂|…)\b` where every alternative `litᵢ` is a literal string that
  starts and ends with a word character; such a regex matches a text iff some
  alternative occurs in the text with a non-word character (or the text
  boundary) on both sides.  The matcher below implements exactly that.
-/

namespace DigitalChat

/-- `\w` of Python `re` restricted to ASCII: letters, digits or underscore. -/
def isWordChar (c : Char) : Bool :=
  c.isAlphanum || c = '_'

/-- A position boundary is acceptable when the neighbouring character is
absent (text boundary) or is not a word character.  This is `\b` next to a
pattern alternative that starts/ends with a word character. -/
def boundaryOk : Option Char → Bool
  | none => true
  | some c => !isWordChar c

/-- Does the literal `pat` occur at the head of `text`, with a word boundary
right after it? -/
def matchHere (pat text : List Char) : Bool :=
  pat.isPrefixOf text && boundaryOk (text.drop pat.length).head?

/-- Scan `text` for a word-bounded occurrence of `pat`; `prev` is the
character just before the current position (for the left boundary). -/
def searchWordAux (pat : List Char) : List Char → Option Char → Bool
  | [], _ => false
  | t :: ts, prev =>
      (boundaryOk prev && matchHere pat (t :: ts)) || searchWordAux pat ts (some t)

/-- `re.search(r"\b" ++ word ++ r"\b", text)` for a literal `word` that starts
and ends with a word character. -/
def containsWord (text : List Char) (word : String) : Bool :=
  searchWordAux word.data text none

/-- One regex of the form `\b(alt₁|alt₂|…)\b`: it matches iff some
alternative occurs word-bounded in the text. -/
def patternMatches (alts : List String) (text : List Char) : Bool :=
  alts.any (containsWord text)

/-- Python `str.lower()` (ASCII scope). -/
def lowerChars (l : List Char) : List Char :=
  l.map Char.toLower

/-- Python `str.strip()`: remove leading and trailing whitespace. -/
def stripChars (l : List Char) : List Char :=
  ((l.dropWhile Char.isWhitespace).reverse.dropWhile Char.isWhitespace).reverse

/-- `QuestionType` of `backend/safety.py`. -/
inductive QuestionType where
  | educational
  | clinical
  | emergency
deriving DecidableEq, Repr

/-- `CLINICAL_PATTERNS` of `backend/safety.py`, each regex
`\b(alt|…)\b` expanded into its list of literal alternatives
(`diagnos(e|is|ing)` ↦ `diagnose`, `diagnosis`, `diagnosing`;
`prescrib(e|ing)` ↦ `prescribe`, `prescribing`). -/
def CLINICAL_PATTERNS : List (List String) := [
  ["diagnose", "diagnosis", "diagnosing", "diagnostic"],
  ["prescribe", "prescribing", "prescription", "medication", "drug"],
  ["emergency", "911", "urgent", "bleeding heavily", "can\x27t breathe"],
  ["lab result", "blood test", "imaging", "scan result", "biopsy result"],
  ["should i take", "can i take", "dosage", "mg", "milligram"],
  ["treat my", "treating my", "fix my"],
  ["is this normal for me", "my specific", "my case"]]

/-- `EMERGENCY_PATTERNS` of `backend/safety.py`. -/
def EMERGENCY_PATTERNS : List (List String) := [
  ["emergency", "911", "bleeding", "can\x27t breathe", "chest pain", "stroke"]]

/-- Does any regex of `pats` match the (lowercased, stripped) text? -/
def anyPatternMatches (pats : List (List String)) (lower : List Char) : Bool :=
  pats.any (fun p => patternMatches p lower)

/-- `classify_question` of `backend/safety.py`: lowercase and strip the text;
empty result is EDUCATIONAL; otherwise the EMERGENCY regexes are tried first
(any match returns EMERGENCY), then the CLINICAL regexes, else EDUCATIONAL. -/
def classify_question (text : String) : QuestionType :=
  let lower := stripChars (lowerChars text.data)
  if lower = [] then .educational
  else if anyPatternMatches EMERGENCY_PATTERNS lower then .emergency
  else if anyPatternMatches CLINICAL_PATTERNS lower then .clinical
  else .educational

/-! ## `backend/chat.py` -/

/-- `FALLBACK_MODELS` of `backend/chat.py`. -/
def FALLBACK_MODELS : List String := [
  "gemini-1.5-flash-latest",
  "gemini-1.5-flash",
  "gemini-1.5-flash-8b",
  "gemini-2.0-flash",
  "gemini-2.0-flash-lite"]

/-- `_normalize_model_name` of `backend/chat.py`: strip surrounding
whitespace (`(model or "").strip()`); if the result starts with the
namespace prefix `models/`, keep only what follows the first `/`
(`cleaned.split("/", 1)[1]`, which for such strings is the substring after
the 7-character prefix). -/
def _normalize_model_name (model : String) : String :=
  let cleaned := String.mk (stripChars model.data)
  if ("models/".data).isPrefixOf cleaned.data then String.mk (cleaned.data.drop 7)
  else cleaned

/-- `_candidate_models` of `backend/chat.py`: start from the normalized
primary model (skipped when empty); unless it already ends in `-latest`,
add its `-latest` variant; then append each fallback model not already
present. -/
def _candidate_models (primary : String) : List String :=
  let p := _normalize_model_name primary
  let base : List String :=
    if p = "" then []
    else if ("-latest".data).isSuffixOf p.data then [p]
    else [p, p ++ "-latest"]
  FALLBACK_MODELS.foldl (fun acc m => if m ∈ acc then acc else acc ++ [m]) base

/-- A chat-history entry (`Message` of `backend/store.py`). -/
structure Message where
  role : String
  content : String
deriving DecidableEq, Repr

/-- One turn of the Gemini `contents` array: a role and the text fields of
its parts. -/
structure GeminiMsg where
  role : String
  parts : List String
deriving DecidableEq, Repr

/-- The `generationConfig` object of the request payload. -/
structure GenerationConfig where
  temperature : ℚ
  maxOutputTokens : ℤ
deriving DecidableEq, Repr

/-- `VoiceConfig` (voice sub-object of the settings). -/
structure VoiceConfig where
  enabled : Bool
  speaker_id : String
  language : String
  auto_play : Bool
deriving DecidableEq, Repr

/-- The full settings value returned by `get_settings` of
`backend/settings.py`. -/
structure Settings where
  system_prompt : String
  model : String
  temperature : ℚ
  max_tokens : ℤ
  preset : String
  voice : VoiceConfig
deriving DecidableEq, Repr

/-- The JSON request body `get_chat_response` sends to the Gemini endpoint:
`systemInstruction` (text of its single part), `contents`, and
`generationConfig`. -/
structure GeminiPayload where
  systemInstruction : String
  contents : List GeminiMsg
  generationConfig : GenerationConfig
deriving DecidableEq, Repr

/-- The history-to-payload mapping of `get_chat_response`: every history
item whose content is non-empty (Python truthiness of `content`) becomes a
turn — role `model` when the item role is `assistant`, `user` otherwise —
and the new question is appended as the final `user` turn. -/
def build_messages (history : List Message) (question : String) : List GeminiMsg :=
  (history.filterMap fun item =>
    if item.content = "" then none
    else some ⟨if item.role = "assistant" then "model" else "user", [item.content]⟩)
  ++ [⟨"user", [question]⟩]

/-- The request payload `get_chat_response` builds for every candidate
model (the endpoint URL varies per candidate, the body does not). -/
def build_payload (settings : Settings) (question : String)
    (history : List Message) : GeminiPayload :=
  ⟨settings.system_prompt, build_messages history question,
   ⟨settings.temperature, settings.max_tokens⟩⟩

/-- Outcome of one HTTPS `generateContent` call, as far as
`get_chat_response` inspects it: a parsed success body (the candidates,
each listing the optional `text` field of its content parts), an HTTP error
with status code and the error detail extracted from the body (`""` when no
detail could be extracted), or any other exception. -/
inductive GeminiResult where
  | ok (candidates : List (List (Option String)))
  | httpError (code : ℕ) (details : String)
  | failure
deriving DecidableEq, Repr

/-- Success-path extraction of `get_chat_response`: collect every non-empty
text part of every candidate, in order. -/
def extract_parts (candidates : List (List (Option String))) : List String :=
  (candidates.map (fun parts => parts.filterMap fun t? =>
    match t? with
    | some t => if t = "" then none else some t
    | none => none)).flatten

/-- The fixed message returned when `GEMINI_API_KEY` is unset. -/
def NO_KEY_MSG : String :=
  "I\x27m sorry, I\x27m having trouble responding right now. Please set GEMINI_API_KEY in your .env and try again."

/-- The hardcoded emergency-services message of `get_chat_response`. -/
def EMERGENCY_MSG : String :=
  "If you\x27re experiencing a medical emergency, please call 911 or go to your nearest emergency room immediately. This tool provides educational information and emotional support only. It does not provide medical advice."

/-- The hardcoded redirect-to-care-team message of `get_chat_response`. -/
def CLINICAL_MSG : String :=
  "This is something your care team should address directly. I\x27m here to provide general education and emotional support about postoperative care and cancer-related topics. For personalized medical advice, please speak with your doctor."

/-- Returned on a 2xx response that yielded no text parts. -/
def EMPTY_GEN_MSG : String :=
  "I\x27m sorry, I couldn\x27t generate a response."

/-- Returned on HTTP 403. -/
def KEY_403_MSG : String :=
  "I\x27m sorry, I\x27m having trouble responding right now. Gemini rejected the API key (403). Please verify GEMINI_API_KEY."

/-- Returned on HTTP 400 with an extractable error detail. -/
def BAD_REQUEST_MSG (details : String) : String :=
  "I\x27m sorry, I\x27m having trouble responding right now. Gemini request error: " ++ details

/-- Returned on other HTTP errors and unexpected exceptions. -/
def GENERIC_ERROR_MSG : String :=
  "I\x27m sorry, I\x27m having trouble responding right now. Please verify your Gemini API key and model name, then try again."

/-- Returned when the candidate loop exhausts all models with 404s; names
the model (`last_404_model or model`). -/
def MODEL_NOT_FOUND_MSG (model : String) : String :=
  "I\x27m sorry, I\x27m having trouble responding right now. Gemini model \x27" ++ model
  ++ "\x27 was not found. Please set model to \x27gemini-1.5-flash-latest\x27 in Settings."

/-- The candidate-model loop of `get_chat_response`.  `oracle` is the
network: the parsed outcome of POSTing `payload` to the endpoint of a given
model.  `model` is the raw configured model (for the final
`last_404_model or model` message) and the `Option String` argument is
`last_404_model`.  Besides the returned text, the list of models actually
called over HTTP is returned, so that the absence of LLM calls is
expressible. -/
def chat_loop (oracle : GeminiPayload → String → GeminiResult)
    (payload : GeminiPayload) (model : String) :
    List String → Option String → String × List String
  | [], last404 =>
      (MODEL_NOT_FOUND_MSG (match last404 with
        | some m => if m = "" then model else m
        | none => model), [])
  | active :: rest, _ =>
      match oracle payload active with
      | .ok body =>
          let parts := extract_parts body
          (if parts = [] then EMPTY_GEN_MSG else String.intercalate "\n" parts, [active])
      | .httpError code details =>
          if code = 403 then (KEY_403_MSG, [active])
          else if code = 404 then
            let r := chat_loop oracle payload model rest (some active)
            (r.1, active :: r.2)
          else if code = 400 ∧ details ≠ "" then (BAD_REQUEST_MSG details, [active])
          else (GENERIC_ERROR_MSG, [active])
      | .failure => (GENERIC_ERROR_MSG, [active])

/-- `get_chat_response` of `backend/chat.py`.  The ambient inputs of the
Python function are explicit parameters: `api_key` is the `GEMINI_API_KEY`
environment value, `settings` the value `get_settings()` returns, `oracle`
the network.  Returns the response text together with the list of models
for which an HTTP request was issued. -/
def get_chat_response (api_key : String) (settings : Settings)
    (oracle : GeminiPayload → String → GeminiResult) (question : String)
    (history : List Message) : String × List String :=
  if api_key = "" then (NO_KEY_MSG, [])
  else
    match classify_question question with
    | .emergency => (EMERGENCY_MSG, [])
    | .clinical => (CLINICAL_MSG, [])
    | .educational =>
        chat_loop oracle (build_payload settings question history) settings.model
          (_candidate_models settings.model) none

/-! ## `backend/settings.py` -/

/-- `DEFAULT_SYSTEM_PROMPT` of `backend/settings.py`, with
`CLINICIAN.name = "Dr Ash Tewari"` (from `backend/config.py`)
substituted into the f-string. -/
def DEFAULT_SYSTEM_PROMPT : String :=
  "You are a digital avatar representing Dr Ash Tewari, providing educational information and emotional support only. You do NOT diagnose, prescribe, or give medical advice.

## Your Role
- Provide calm, empathetic, plain-language education
- Answer common patient FAQs about postoperative care and cancer education
- Offer emotional support and reassurance
- Explain medical terms when you use them

## Strict Boundaries (NEVER cross these)
- Do NOT diagnose any condition
- Do NOT recommend or discuss specific medications
- Do NOT handle emergencies (direct to 911 / emergency care)
- Do NOT interpret lab results or imaging
- Do NOT give personalized treatment advice

## When a question exceeds your scope
If the patient asks for diagnosis, medication advice, emergency help, or personalized medical decisions, respond EXACTLY:
\"This is something your care team should address directly.\"

Then briefly explain you\x27re here for general education and support, and encourage them to speak with their doctor.

## Response Style
- Warm, calm, reassuring
- Short paragraphs (2-4 sentences)
- Plain language; explain jargon
- Empathetic and supportive
- Based only on general educational content

## Knowledge Base
- General postoperative recovery
- Common cancer education topics
- General wellness and lifestyle
- Pre-approved FAQ content"

/-- The `concise` entry of `PROMPT_PRESETS`. -/
def CONCISE_PRESET_PROMPT : String :=
  "You are Dr Ash Tewari\x27s digital avatar. Provide brief, educational answers only. No diagnosis or medical advice.

- Be warm but concise (1-2 sentences when possible)
- Plain language only
- If asked for diagnosis/medication/emergency: \"This is something your care team should address directly.\"
- Knowledge: postoperative care, cancer education, general wellness"

/-- The `empathetic` entry of `PROMPT_PRESETS`. -/
def EMPATHETIC_PRESET_PROMPT : String :=
  "You are Dr Ash Tewari\x27s digital avatar. Your priority is emotional support and reassurance, then education.

- Lead with empathy and validation
- Use gentle, reassuring language
- Acknowledge feelings before providing information
- If asked for diagnosis/medication/emergency: \"This is something your care team should address directly.\"
- Knowledge: postoperative care, cancer education, general wellness"

/-- The `educational` entry of `PROMPT_PRESETS`. -/
def EDUCATIONAL_PRESET_PROMPT : String :=
  "You are Dr Ash Tewari\x27s digital avatar. Focus on clear, thorough educational explanations.

- Explain concepts step-by-step
- Use analogies when helpful
- Define medical terms inline
- If asked for diagnosis/medication/emergency: \"This is something your care team should address directly.\"
- Knowledge: postoperative care, cancer education, general wellness"

/-- `PROMPT_PRESETS` of `backend/settings.py` as a lookup function
(`none` for names not in the dict). -/
def PROMPT_PRESETS (name : String) : Option String :=
  if name = "default" then some DEFAULT_SYSTEM_PROMPT
  else if name = "concise" then some CONCISE_PRESET_PROMPT
  else if name = "empathetic" then some EMPATHETIC_PRESET_PROMPT
  else if name = "educational" then some EDUCATIONAL_PRESET_PROMPT
  else none

/-- `DEFAULT_VOICE_SETTINGS` of `backend/settings.py`. -/
def DEFAULT_VOICE_SETTINGS : VoiceConfig :=
  ⟨false, "dr_tewari", "en", true⟩

/-- A partial voice object: the keys present in a JSON `voice` dict
(missing keys are `none`). -/
structure RawVoice where
  enabled : Option Bool
  speaker_id : Option String
  language : Option String
  auto_play : Option Bool
deriving DecidableEq, Repr

/-- The content of the backing file `data/settings.json` as `_load_raw`
returns it: a JSON object whose keys may each be absent.  A missing or
unparseable file is the empty object (all fields `none`). -/
structure RawSettings where
  system_prompt : Option String
  model : Option String
  temperature : Option ℚ
  max_tokens : Option ℤ
  preset : Option String
  voice : Option RawVoice
deriving DecidableEq, Repr

/-- The empty raw-settings object (missing/corrupt file). -/
def emptyRaw : RawSettings := ⟨none, none, none, none, none, none⟩

/-- The voice merge `{**DEFAULT_VOICE_SETTINGS, **existing_voice}` that
`get_settings` performs (an absent or non-dict `voice` contributes
nothing). -/
def merge_voice_read : Option RawVoice → VoiceConfig
  | none => DEFAULT_VOICE_SETTINGS
  | some v =>
      ⟨v.enabled.getD DEFAULT_VOICE_SETTINGS.enabled,
       v.speaker_id.getD DEFAULT_VOICE_SETTINGS.speaker_id,
       v.language.getD DEFAULT_VOICE_SETTINGS.language,
       v.auto_play.getD DEFAULT_VOICE_SETTINGS.auto_play⟩

/-- The body of `get_settings` of `backend/settings.py` (inside its lock):
read each field from the raw file content, falling back to the defaults.
`env_model` is the `GEMINI_MODEL` environment variable.  The Python float
default `0.7` appears only as a passed-through constant, so its rational
image is exact for every property proved here. -/
def get_settings (env_model : Option String) (raw : RawSettings) : Settings :=
  ⟨raw.system_prompt.getD DEFAULT_SYSTEM_PROMPT,
   raw.model.getD (env_model.getD "gemini-1.5-flash-latest"),
   raw.temperature.getD (7/10),
   raw.max_tokens.getD 500,
   raw.preset.getD "default",
   merge_voice_read raw.voice⟩

/-- The arguments of `update_settings` (each `None`-able keyword
parameter). -/
structure SettingsUpdate where
  system_prompt : Option String
  model : Option String
  temperature : Option ℚ
  max_tokens : Option ℤ
  preset : Option String
  voice : Option RawVoice
deriving DecidableEq, Repr

/-- The voice merge of `update_settings`:
`{**DEFAULT_VOICE_SETTINGS, **existing_voice, **voice}`, then each field is
coerced to its declared type (identity here, the fields being typed) and
all four keys are stored. -/
def merge_voice_update (existing : Option RawVoice) (supplied : RawVoice) : RawVoice :=
  let base := merge_voice_read existing
  ⟨some (supplied.enabled.getD base.enabled),
   some (supplied.speaker_id.getD base.speaker_id),
   some (supplied.language.getD base.language),
   some (supplied.auto_play.getD base.auto_play)⟩

/-- `if system_prompt is not None: raw["system_prompt"] = system_prompt`. -/
def upd_system_prompt (u : SettingsUpdate) (raw : RawSettings) : RawSettings :=
  match u.system_prompt with
  | some sp => {raw with system_prompt := some sp}
  | none => raw

/-- `if model is not None: raw["model"] = model`. -/
def upd_model (u : SettingsUpdate) (raw : RawSettings) : RawSettings :=
  match u.model with
  | some m => {raw with model := some m}
  | none => raw

/-- `if temperature is not None: raw["temperature"] = min(1.0, max(0.0, temperature))`. -/
def upd_temperature (u : SettingsUpdate) (raw : RawSettings) : RawSettings :=
  match u.temperature with
  | some t => {raw with temperature := some (min 1 (max 0 t))}
  | none => raw

/-- `if max_tokens is not None: raw["max_tokens"] = max(100, min(2000, max_tokens))`. -/
def upd_max_tokens (u : SettingsUpdate) (raw : RawSettings) : RawSettings :=
  match u.max_tokens with
  | some mt => {raw with max_tokens := some (max 100 (min 2000 mt))}
  | none => raw

/-- `if preset is not None and preset in PROMPT_PRESETS:` store the preset
name and overwrite `system_prompt` with the preset text; a supplied preset
that is not a known name fails the `in` test and the whole block is
skipped. -/
def upd_preset (u : SettingsUpdate) (raw : RawSettings) : RawSettings :=
  match u.preset with
  | some p =>
      match PROMPT_PRESETS p with
      | some text => {raw with preset := some p, system_prompt := some text}
      | none => raw
  | none => raw

/-- `if voice is not None:` merge and store the voice sub-object. -/
def upd_voice (u : SettingsUpdate) (raw : RawSettings) : RawSettings :=
  match u.voice with
  | some v => {raw with voice := some (merge_voice_update raw.voice v)}
  | none => raw

/-- The read-modify-write body of `update_settings` of
`backend/settings.py`: the transformation applied to the raw file content.
The five `if`-blocks run in source order: `system_prompt`, `model`,
`temperature` (clamped by `min(1.0, max(0.0, t))`), `max_tokens` (clamped
by `max(100, min(2000, mt))`), `preset` — which, when supplied and a key of
`PROMPT_PRESETS`, also overwrites `system_prompt` with the preset text —
and `voice`. -/
def apply_update (u : SettingsUpdate) (raw : RawSettings) : RawSettings :=
  upd_voice u (upd_preset u (upd_max_tokens u (upd_temperature u
    (upd_model u (upd_system_prompt u raw)))))

/-! ### The settings lock

`backend/settings.py` guards the file through a single non-reentrant
`threading.Lock`.  The state below is that lock together with the file
content; `none` models the calling thread blocking forever on an acquire
that can never succeed (no other thread can release a lock the caller
itself holds). -/

/-- The `_lock` mutex of `backend/settings.py` together with the content of
the backing file. -/
structure SettingsSysState where
  locked : Bool
  file : RawSettings
deriving DecidableEq, Repr

/-- `_lock.acquire()` by the thread under consideration: blocks forever
(`none`) when the lock is already held. -/
def acquireLock (s : SettingsSysState) : Option SettingsSysState :=
  if s.locked then none else some ⟨true, s.file⟩

/-- `_lock.release()`. -/
def releaseLock (s : SettingsSysState) : SettingsSysState :=
  ⟨false, s.file⟩

/-- `get_settings()` as executed: `with _lock:` around the pure read. -/
def get_settings_locked (env_model : Option String) (s : SettingsSysState) :
    Option (Settings × SettingsSysState) :=
  match acquireLock s with
  | none => none
  | some s1 => some (get_settings env_model s1.file, releaseLock s1)

/-- `update_settings(...)` as executed: `with _lock:` around read
(`_load_raw`), modify, write (`_save_raw`), then — still inside the `with`
block — `return get_settings()`, which acquires `_lock` again. -/
def update_settings_locked (env_model : Option String) (u : SettingsUpdate)
    (s : SettingsSysState) : Option (Settings × SettingsSysState) :=
  match acquireLock s with
  | none => none
  | some s1 =>
      let s2 : SettingsSysState := ⟨s1.locked, apply_update u s1.file⟩
      match get_settings_locked env_model s2 with
      | none => none
      | some (res, s3) => some (res, releaseLock s3)

/-! ## `backend/store.py` -/

/-- The in-memory `_sessions` mapping, as an insertion-ordered association
list from session id to history. -/
abbrev Sessions : Type := List (String × List Message)

/-- `sid in _sessions`. -/
def hasSession (st : Sessions) (sid : String) : Bool :=
  (List.any st (fun e => e.1 = sid) : Bool)

/-- `create_session` of `backend/store.py`: `fresh` stands for the
generated `uuid4` value (its freshness is a hypothesis of the theorems
below); the new session starts with an empty history. -/
def create_session (fresh : String) (st : Sessions) : String × Sessions :=
  (fresh, ((fresh, ([] : List Message)) :: st : Sessions))

/-- `get_or_create_session` of `backend/store.py`:
`if session_id and session_id in _sessions: return session_id` — note the
Python truthiness check, under which `None` and `""` both fall through —
`return create_session()` otherwise. -/
def get_or_create_session (fresh : String) (st : Sessions) (sid? : Option String) :
    String × Sessions :=
  match sid? with
  | some sid => if sid ≠ "" ∧ hasSession st sid then (sid, st) else create_session fresh st
  | none => create_session fresh st

/-- The (lowercase, strip, match) pipeline of `classify_question` applied
to one pattern set: does any regex of `pats` match the prepared text? -/
def matches_any (pats : List (List String)) (text : String) : Bool :=
  anyPatternMatches pats (stripChars (lowerChars text.data))

/-! ## Theorems -/

lemma anyPatternMatches_nil (pats : List (List String)) :
    anyPatternMatches pats [] = false := by
  simp [anyPatternMatches, patternMatches, containsWord, searchWordAux]

lemma toLower_of_whitespace {c : Char} (h : c.isWhitespace = true) :
    c.toLower = c := by
  have h4 : c = ' ' ∨ c = '\t' ∨ c = '\r' ∨ c = '\n' := by
    simpa [Char.isWhitespace, or_assoc] using h
  rcases h4 with rfl | rfl | rfl | rfl <;> decide

lemma stripChars_of_whitespace {l : List Char}
    (h : ∀ c ∈ l, c.isWhitespace = true) : stripChars l = [] := by
  have hd : l.dropWhile Char.isWhitespace = [] :=
    List.dropWhile_eq_nil_iff.mpr h
  simp [stripChars, hd]

/-- **C5.** `classify_question` is pure in its text argument: whitespace-only
input is EDUCATIONAL; any emergency-pattern match yields EMERGENCY (even when
clinical patterns also match); otherwise a clinical-pattern match yields
CLINICAL, else EDUCATIONAL; and the result depends only on the lowercased
text (case-insensitivity).  The final conjunct exhibits a text matching both
pattern sets that is classified EMERGENCY. -/
theorem claim_c5_classifier :
    (∀ s : String, (∀ c ∈ s.data, c.isWhitespace = true) →
      classify_question s = .educational)
    ∧ (∀ s : String, matches_any EMERGENCY_PATTERNS s = true →
      classify_question s = .emergency)
    ∧ (∀ s : String, matches_any EMERGENCY_PATTERNS s = false →
      matches_any CLINICAL_PATTERNS s = true → classify_question s = .clinical)
    ∧ (∀ s : String, matches_any EMERGENCY_PATTERNS s = false →
      matches_any CLINICAL_PATTERNS s = false → classify_question s = .educational)
    ∧ (∀ s t : String, lowerChars s.data = lowerChars t.data →
      classify_question s = classify_question t)
    ∧ (classify_question "can\x27t breathe" = .emergency
      ∧ matches_any CLINICAL_PATTERNS "can\x27t breathe" = true) := by
  refine ⟨?_, ?_, ?_, ?_, ?_, by decide, by decide⟩
  · intro s h
    have hws : ∀ c ∈ lowerChars s.data, c.isWhitespace = true := by
      intro c hc
      simp only [lowerChars, List.mem_map] at hc
      obtain ⟨a, ha, rfl⟩ := hc
      rw [toLower_of_whitespace (h a ha)]
      exact h a ha
    simp [classify_question, stripChars_of_whitespace hws]
  · intro s h
    by_cases hL : stripChars (lowerChars s.data) = []
    · rw [matches_any, hL, anyPatternMatches_nil] at h
      exact absurd h (by simp)
    · rw [matches_any] at h
      simp [classify_question, hL, h]
  · intro s he hc
    by_cases hL : stripChars (lowerChars s.data) = []
    · rw [matches_any, hL, anyPatternMatches_nil] at hc
      exact absurd hc (by simp)
    · rw [matches_any] at he hc
      simp [classify_question, hL, he, hc]
  · intro s he hc
    rw [matches_any] at he hc
    simp [classify_question, he, hc]
  · intro s t h
    simp only [classify_question, h]

/-- Closed instances of C5 at concrete inputs. -/
theorem claim_c5_classifier_witness :
    classify_question "   " = .educational
    ∧ classify_question "emergency" = .emergency
    ∧ classify_question "what is my dosage" = .clinical
    ∧ classify_question "hello" = .educational
    ∧ classify_question "HELLO" = classify_question "hello" :=
  ⟨claim_c5_classifier.1 "   " (by decide),
   claim_c5_classifier.2.1 "emergency" (by decide),
   claim_c5_classifier.2.2.1 "what is my dosage" (by decide) (by decide),
   claim_c5_classifier.2.2.2.1 "hello" (by decide) (by decide),
   claim_c5_classifier.2.2.2.2.1 "HELLO" "hello" (by decide)⟩

/-- **C1.** With an API key configured, a question classified EMERGENCY makes
`get_chat_response` return exactly the hardcoded emergency-services message,
and a question classified CLINICAL exactly the hardcoded redirect message; in
both cases the list of models called over HTTP is empty, and the result is
literally independent of the settings, history and network (they are
universally quantified while the right-hand side is a constant). -/
theorem claim_c1_fixed_safety_messages :
    ∀ (api_key : String) (settings : Settings)
      (oracle : GeminiPayload → String → GeminiResult)
      (q : String) (history : List Message),
      api_key ≠ "" →
      (classify_question q = .emergency →
        get_chat_response api_key settings oracle q history = (EMERGENCY_MSG, []))
      ∧ (classify_question q = .clinical →
        get_chat_response api_key settings oracle q history = (CLINICAL_MSG, [])) := by
  intro api_key settings oracle q history hkey
  constructor
  · intro hq
    simp [get_chat_response, hkey, hq]
  · intro hq
    simp [get_chat_response, hkey, hq]

/-- Closed instance of C1: concrete emergency and clinical questions, a
concrete key, settings, network and history. -/
theorem claim_c1_fixed_safety_messages_witness :
    get_chat_response "k" (get_settings none emptyRaw) (fun _ _ => .failure)
        "emergency" [⟨"user", "hi"⟩] = (EMERGENCY_MSG, [])
    ∧ get_chat_response "k" (get_settings none emptyRaw) (fun _ _ => .failure)
        "what is my dosage" [] = (CLINICAL_MSG, []) :=
  ⟨(claim_c1_fixed_safety_messages "k" (get_settings none emptyRaw)
      (fun _ _ => .failure) "emergency" [⟨"user", "hi"⟩] (by decide)).1 (by decide),
   (claim_c1_fixed_safety_messages "k" (get_settings none emptyRaw)
      (fun _ _ => .failure) "what is my dosage" [] (by decide)).2 (by decide)⟩

/-- **C3.** Candidate-model derivation: for `gemini-1.5-flash` the list
begins with the configured name and its `-latest` variant, followed by the
fallbacks with duplicates skipped; a `models/` prefix is normalized away
first; and for ANY configured name normalizing to a `-latest`-suffixed
string, no extra `-latest` variant is inserted — the list is exactly the
normalized name followed by the fallbacks other than it. -/
theorem claim_c3_candidate_models :
    _candidate_models "gemini-1.5-flash" =
      ["gemini-1.5-flash", "gemini-1.5-flash-latest", "gemini-1.5-flash-8b",
       "gemini-2.0-flash", "gemini-2.0-flash-lite"]
    ∧ _candidate_models "models/gemini-1.5-flash" =
      ["gemini-1.5-flash", "gemini-1.5-flash-latest", "gemini-1.5-flash-8b",
       "gemini-2.0-flash", "gemini-2.0-flash-lite"]
    ∧ _candidate_models "gemini-2.0-flash-lite-latest" =
      "gemini-2.0-flash-lite-latest" :: FALLBACK_MODELS
    ∧ (∀ m : String,
        ("-latest".data).isSuffixOf (_normalize_model_name m).data = true →
        _candidate_models m =
          _normalize_model_name m ::
            FALLBACK_MODELS.filter (fun f => f ≠ _normalize_model_name m)) := by
  refine ⟨by decide, by decide, by decide, ?_⟩
  intro m h
  obtain ⟨p, hp⟩ : ∃ p, _normalize_model_name m = p := ⟨_, rfl⟩
  rw [hp] at h ⊢
  have hne : p ≠ "" := by
    intro h0; rw [h0] at h; exact absurd h (by decide)
  have h2 : p ≠ "gemini-1.5-flash" := by
    intro h0; rw [h0] at h; exact absurd h (by decide)
  have h3 : p ≠ "gemini-1.5-flash-8b" := by
    intro h0; rw [h0] at h; exact absurd h (by decide)
  have h4 : p ≠ "gemini-2.0-flash" := by
    intro h0; rw [h0] at h; exact absurd h (by decide)
  have h5 : p ≠ "gemini-2.0-flash-lite" := by
    intro h0; rw [h0] at h; exact absurd h (by decide)
  by_cases h1 : p = "gemini-1.5-flash-latest"
  · subst h1
    simp only [_candidate_models, hp]
    decide
  · simp only [_candidate_models, hp, FALLBACK_MODELS, List.foldl, List.filter]
    rw [if_neg hne, if_pos h]
    simp [Ne.symm h1, Ne.symm h2, Ne.symm h3, Ne.symm h4, Ne.symm h5,
      h1, h2, h3, h4, h5]

/-- Closed instance of C3 (general conjunct) at a `-latest` model name. -/
theorem claim_c3_candidate_models_witness :
    _candidate_models "gemini-2.0-flash-lite-latest" =
      _normalize_model_name "gemini-2.0-flash-lite-latest" ::
        FALLBACK_MODELS.filter
          (fun f => f ≠ _normalize_model_name "gemini-2.0-flash-lite-latest") :=
  claim_c3_candidate_models.2.2.2 "gemini-2.0-flash-lite-latest" (by decide)

/-- An HTTP 404 (model not found) outcome, with any error detail. -/
def is404 (r : GeminiResult) : Prop := ∃ d, r = .httpError 404 d

lemma chat_loop_all_404 (oracle : GeminiPayload → String → GeminiResult)
    (payload : GeminiPayload) (model : String) :
    ∀ (cands : List String) (last404 : Option String),
      (∀ x ∈ cands, is404 (oracle payload x)) →
      (∀ x ∈ cands, x ≠ "") → cands ≠ [] →
      chat_loop oracle payload model cands last404 =
        (MODEL_NOT_FOUND_MSG (cands.getLast?.getD model), cands) := by
  intro cands
  induction cands with
  | nil => intro _ _ _ h; exact absurd rfl h
  | cons a rest ih =>
    intro last404 h404 hne _
    obtain ⟨d, hd⟩ := h404 a (by simp)
    cases rest with
    | nil =>
      have ha : a ≠ "" := hne a (by simp)
      simp [chat_loop, hd, ha]
    | cons b rs =>
      have hrec := ih (some a)
        (fun x hx => h404 x (List.mem_cons_of_mem a hx))
        (fun x hx => hne x (List.mem_cons_of_mem a hx))
        (by simp)
      have step : chat_loop oracle payload model (a :: b :: rs) last404 =
          ((chat_loop oracle payload model (b :: rs) (some a)).1,
           a :: (chat_loop oracle payload model (b :: rs) (some a)).2) := by
        simp [chat_loop, hd]
      rw [step, hrec]
      simp [List.getLast?_cons_cons]

lemma chat_loop_skip_404 (oracle : GeminiPayload → String → GeminiResult)
    (payload : GeminiPayload) (model : String) :
    ∀ (pre : List String) (m : String) (rest : List String)
      (last404 : Option String) (body : List (List (Option String))),
      (∀ x ∈ pre, is404 (oracle payload x)) →
      oracle payload m = .ok body →
      extract_parts body ≠ [] →
      chat_loop oracle payload model (pre ++ m :: rest) last404 =
        (String.intercalate "\n" (extract_parts body), pre ++ [m]) := by
  intro pre
  induction pre with
  | nil =>
    intro m rest last404 body _ hok hne
    simp [chat_loop, hok, hne]
  | cons a pr ih =>
    intro m rest last404 body h404 hok hne
    obtain ⟨d, hd⟩ := h404 a (by simp)
    have hrec := ih m rest (some a) body
      (fun x hx => h404 x (List.mem_cons_of_mem a hx)) hok hne
    simp [chat_loop, hd, hrec]

lemma mem_foldl_dedup :
    ∀ (l base : List String) (x : String),
      x ∈ l.foldl (fun acc m => if m ∈ acc then acc else acc ++ [m]) base →
      x ∈ base ∨ x ∈ l := by
  intro l
  induction l with
  | nil => intro base x hx; exact Or.inl hx
  | cons a as ih =>
    intro base x hx
    simp only [List.foldl] at hx
    by_cases ha : a ∈ base
    · rw [if_pos ha] at hx
      rcases ih base x hx with h | h
      · exact Or.inl h
      · exact Or.inr (List.mem_cons_of_mem a h)
    · rw [if_neg ha] at hx
      rcases ih (base ++ [a]) x hx with h | h
      · rcases List.mem_append.mp h with h' | h'
        · exact Or.inl h'
        · simp only [List.mem_singleton] at h'
          exact Or.inr (h' ▸ List.mem_cons_self a as)
      · exact Or.inr (List.mem_cons_of_mem a h)

lemma mem_foldl_dedup_of_mem :
    ∀ (l base : List String) (x : String),
      (x ∈ base ∨ x ∈ l) →
      x ∈ l.foldl (fun acc m => if m ∈ acc then acc else acc ++ [m]) base := by
  intro l
  induction l with
  | nil => intro base x hx; simpa using hx
  | cons a as ih =>
    intro base x hx
    simp only [List.foldl]
    by_cases ha : a ∈ base
    · rw [if_pos ha]
      refine ih base x ?_
      rcases hx with h | h
      · exact Or.inl h
      · rcases List.mem_cons.mp h with rfl | h'
        · exact Or.inl ha
        · exact Or.inr h'
    · rw [if_neg ha]
      refine ih (base ++ [a]) x ?_
      rcases hx with h | h
      · exact Or.inl (List.mem_append.mpr (Or.inl h))
      · rcases List.mem_cons.mp h with rfl | h'
        · exact Or.inl (List.mem_append.mpr (Or.inr (by simp)))
        · exact Or.inr h'

lemma append_latest_ne_empty (p : String) : p ++ "-latest" ≠ "" := by
  intro h
  have hd := congrArg String.data h
  rw [String.data_append] at hd
  have : ("-latest".data : List Char) = [] := by
    have := List.append_eq_nil.mp hd
    exact this.2
  exact absurd this (by decide)

lemma candidate_models_mem_ne_empty (m x : String)
    (hx : x ∈ _candidate_models m) : x ≠ "" := by
  simp only [_candidate_models] at hx
  rcases mem_foldl_dedup _ _ _ hx with h | h
  · by_cases hp : _normalize_model_name m = ""
    · rw [if_pos hp] at h
      exact absurd h (List.not_mem_nil x)
    · rw [if_neg hp] at h
      by_cases hl : ("-latest".data).isSuffixOf (_normalize_model_name m).data = true
      · rw [if_pos hl] at h
        simp only [List.mem_singleton] at h
        exact h ▸ hp
      · rw [if_neg hl] at h
        rcases List.mem_cons.mp h with h' | h'
        · intro h0; exact hp (h'.symm.trans h0)
        · simp only [List.mem_singleton] at h'
          intro h0; exact append_latest_ne_empty _ (h'.symm.trans h0)
  · intro hx0
    subst hx0
    exact absurd h (by decide)

lemma candidate_models_ne_nil (m : String) : _candidate_models m ≠ [] := by
  have hmem : "gemini-1.5-flash-latest" ∈ _candidate_models m := by
    simp only [_candidate_models]
    exact mem_foldl_dedup_of_mem _ _ _ (Or.inr (by decide))
  exact List.ne_nil_of_mem hmem

/-- **C4.** In the candidate loop of `get_chat_response`, 404s are skipped:
if every candidate before `m` 404s and `m` succeeds with text, the response
is the text of `m` and exactly the 404ing prefix plus `m` were called; and
if every candidate 404s, the response is the not-found message naming the
last attempted model (and instructing the operator to set
`gemini-1.5-flash-latest` in Settings), with every candidate attempted. -/
theorem claim_c4_404_fallback :
    ∀ (api_key : String) (settings : Settings)
      (oracle : GeminiPayload → String → GeminiResult)
      (q : String) (history : List Message),
      api_key ≠ "" → classify_question q = .educational →
      (∀ pre m rest body,
          _candidate_models settings.model = pre ++ m :: rest →
          (∀ x ∈ pre, is404 (oracle (build_payload settings q history) x)) →
          oracle (build_payload settings q history) m = .ok body →
          extract_parts body ≠ [] →
          get_chat_response api_key settings oracle q history =
            (String.intercalate "\n" (extract_parts body), pre ++ [m]))
      ∧ ((∀ x ∈ _candidate_models settings.model,
            is404 (oracle (build_payload settings q history) x)) →
          get_chat_response api_key settings oracle q history =
            (MODEL_NOT_FOUND_MSG
              ((_candidate_models settings.model).getLast?.getD settings.model),
             _candidate_models settings.model)) := by
  intro api_key settings oracle q history hkey hedu
  constructor
  · intro pre m rest body hsplit h404 hok hne
    rw [get_chat_response, if_neg hkey, hedu, hsplit]
    exact chat_loop_skip_404 oracle _ _ pre m rest none body h404 hok hne
  · intro h404
    rw [get_chat_response, if_neg hkey, hedu]
    exact chat_loop_all_404 oracle _ _ _ none h404
      (fun x hx => candidate_models_mem_ne_empty _ x hx)
      (candidate_models_ne_nil _)

/-- Closed instance of C4: with model `gemini-1.5-flash-latest`, a network
that 404s the first candidate and succeeds on the second returns the text of
the second; a network that 404s everything returns the not-found message
naming the last candidate. -/
theorem claim_c4_404_fallback_witness :
    get_chat_response "k" (get_settings none emptyRaw)
        (fun _ x => if x = "gemini-1.5-flash-latest"
          then .httpError 404 "" else .ok [[some "hello"]]) "hi" [] =
      (String.intercalate "\n" (extract_parts [[some "hello"]]),
       ["gemini-1.5-flash-latest"] ++ ["gemini-1.5-flash"])
    ∧ get_chat_response "k" (get_settings none emptyRaw)
        (fun _ _ => .httpError 404 "detail") "hi" [] =
      (MODEL_NOT_FOUND_MSG
        ((_candidate_models (get_settings none emptyRaw).model).getLast?.getD
          (get_settings none emptyRaw).model),
       _candidate_models (get_settings none emptyRaw).model) :=
  ⟨(claim_c4_404_fallback "k" (get_settings none emptyRaw)
      (fun _ x => if x = "gemini-1.5-flash-latest"
        then .httpError 404 "" else .ok [[some "hello"]]) "hi" []
      (by decide) (by decide)).1
      ["gemini-1.5-flash-latest"] "gemini-1.5-flash"
      ["gemini-1.5-flash-8b", "gemini-2.0-flash", "gemini-2.0-flash-lite"]
      [[some "hello"]] (by decide)
      (by intro x hx
          simp only [List.mem_singleton] at hx
          subst hx
          exact ⟨"", rfl⟩)
      (by decide) (by decide),
   (claim_c4_404_fallback "k" (get_settings none emptyRaw)
      (fun _ _ => .httpError 404 "detail") "hi" []
      (by decide) (by decide)).2
      (fun x _ => ⟨"detail", rfl⟩)⟩

/-! ### Field-projection lemmas for the update steps -/

lemma upd_system_prompt_temperature (u : SettingsUpdate) (raw : RawSettings) :
    (upd_system_prompt u raw).temperature = raw.temperature := by
  simp only [upd_system_prompt]; cases u.system_prompt <;> rfl

lemma upd_model_temperature (u : SettingsUpdate) (raw : RawSettings) :
    (upd_model u raw).temperature = raw.temperature := by
  simp only [upd_model]; cases u.model <;> rfl

lemma upd_max_tokens_temperature (u : SettingsUpdate) (raw : RawSettings) :
    (upd_max_tokens u raw).temperature = raw.temperature := by
  simp only [upd_max_tokens]; cases u.max_tokens <;> rfl

lemma upd_preset_temperature (u : SettingsUpdate) (raw : RawSettings) :
    (upd_preset u raw).temperature = raw.temperature := by
  simp only [upd_preset]
  cases u.preset with
  | none => rfl
  | some p => cases hpp : PROMPT_PRESETS p <;> simp [hpp]

lemma upd_voice_temperature (u : SettingsUpdate) (raw : RawSettings) :
    (upd_voice u raw).temperature = raw.temperature := by
  simp only [upd_voice]; cases u.voice <;> rfl

lemma upd_temperature_temperature (u : SettingsUpdate) (raw : RawSettings) :
    (upd_temperature u raw).temperature =
      match u.temperature with
      | some t => some (min 1 (max 0 t))
      | none => raw.temperature := by
  simp only [upd_temperature]; cases u.temperature <;> rfl

lemma apply_update_temperature (u : SettingsUpdate) (raw : RawSettings) :
    (apply_update u raw).temperature =
      match u.temperature with
      | some t => some (min 1 (max 0 t))
      | none => raw.temperature := by
  simp only [apply_update, upd_voice_temperature, upd_preset_temperature,
    upd_max_tokens_temperature, upd_temperature_temperature,
    upd_model_temperature, upd_system_prompt_temperature]

lemma upd_system_prompt_max_tokens (u : SettingsUpdate) (raw : RawSettings) :
    (upd_system_prompt u raw).max_tokens = raw.max_tokens := by
  simp only [upd_system_prompt]; cases u.system_prompt <;> rfl

lemma upd_model_max_tokens (u : SettingsUpdate) (raw : RawSettings) :
    (upd_model u raw).max_tokens = raw.max_tokens := by
  simp only [upd_model]; cases u.model <;> rfl

lemma upd_temperature_max_tokens (u : SettingsUpdate) (raw : RawSettings) :
    (upd_temperature u raw).max_tokens = raw.max_tokens := by
  simp only [upd_temperature]; cases u.temperature <;> rfl

lemma upd_preset_max_tokens (u : SettingsUpdate) (raw : RawSettings) :
    (upd_preset u raw).max_tokens = raw.max_tokens := by
  simp only [upd_preset]
  cases u.preset with
  | none => rfl
  | some p => cases hpp : PROMPT_PRESETS p <;> simp [hpp]

lemma upd_voice_max_tokens (u : SettingsUpdate) (raw : RawSettings) :
    (upd_voice u raw).max_tokens = raw.max_tokens := by
  simp only [upd_voice]; cases u.voice <;> rfl

lemma upd_max_tokens_max_tokens (u : SettingsUpdate) (raw : RawSettings) :
    (upd_max_tokens u raw).max_tokens =
      match u.max_tokens with
      | some mt => some (max 100 (min 2000 mt))
      | none => raw.max_tokens := by
  simp only [upd_max_tokens]; cases u.max_tokens <;> rfl

lemma apply_update_max_tokens (u : SettingsUpdate) (raw : RawSettings) :
    (apply_update u raw).max_tokens =
      match u.max_tokens with
      | some mt => some (max 100 (min 2000 mt))
      | none => raw.max_tokens := by
  simp only [apply_update, upd_voice_max_tokens, upd_preset_max_tokens,
    upd_max_tokens_max_tokens, upd_temperature_max_tokens,
    upd_model_max_tokens, upd_system_prompt_max_tokens]

lemma upd_model_system_prompt (u : SettingsUpdate) (raw : RawSettings) :
    (upd_model u raw).system_prompt = raw.system_prompt := by
  simp only [upd_model]; cases u.model <;> rfl

lemma upd_temperature_system_prompt (u : SettingsUpdate) (raw : RawSettings) :
    (upd_temperature u raw).system_prompt = raw.system_prompt := by
  simp only [upd_temperature]; cases u.temperature <;> rfl

lemma upd_max_tokens_system_prompt (u : SettingsUpdate) (raw : RawSettings) :
    (upd_max_tokens u raw).system_prompt = raw.system_prompt := by
  simp only [upd_max_tokens]; cases u.max_tokens <;> rfl

lemma upd_voice_system_prompt (u : SettingsUpdate) (raw : RawSettings) :
    (upd_voice u raw).system_prompt = raw.system_prompt := by
  simp only [upd_voice]; cases u.voice <;> rfl

lemma upd_system_prompt_preset (u : SettingsUpdate) (raw : RawSettings) :
    (upd_system_prompt u raw).preset = raw.preset := by
  simp only [upd_system_prompt]; cases u.system_prompt <;> rfl

lemma upd_model_preset (u : SettingsUpdate) (raw : RawSettings) :
    (upd_model u raw).preset = raw.preset := by
  simp only [upd_model]; cases u.model <;> rfl

lemma upd_temperature_preset (u : SettingsUpdate) (raw : RawSettings) :
    (upd_temperature u raw).preset = raw.preset := by
  simp only [upd_temperature]; cases u.temperature <;> rfl

lemma upd_max_tokens_preset (u : SettingsUpdate) (raw : RawSettings) :
    (upd_max_tokens u raw).preset = raw.preset := by
  simp only [upd_max_tokens]; cases u.max_tokens <;> rfl

lemma upd_voice_preset (u : SettingsUpdate) (raw : RawSettings) :
    (upd_voice u raw).preset = raw.preset := by
  simp only [upd_voice]; cases u.voice <;> rfl

lemma upd_preset_of_unknown (u : SettingsUpdate) (raw : RawSettings)
    (p : String) (hp : u.preset = some p) (hpp : PROMPT_PRESETS p = none) :
    upd_preset u raw = raw := by
  simp [upd_preset, hp, hpp]

lemma upd_preset_of_known (u : SettingsUpdate) (raw : RawSettings)
    (p text : String) (hp : u.preset = some p)
    (hpp : PROMPT_PRESETS p = some text) :
    upd_preset u raw = {raw with preset := some p, system_prompt := some text} := by
  simp [upd_preset, hp, hpp]

/-- **C2 (code defect).** Every call to `update_settings` blocks forever:
the `return get_settings()` at the end of its `with _lock:` block
re-acquires the same non-reentrant `threading.Lock` while the caller still
holds it, so the modelled execution yields `none` (the blocked thread) from
every starting state and never returns the merged settings value. -/
theorem claim_c2_update_settings_deadlocks :
    ∀ (env_model : Option String) (u : SettingsUpdate) (s : SettingsSysState),
      update_settings_locked env_model u s = none := by
  intro env u s
  cases hs : s.locked
  · simp [update_settings_locked, acquireLock, get_settings_locked, hs]
  · simp [update_settings_locked, acquireLock, hs]

/-- **C7.** Clamping on write, never on read: updating with temperature 5
stores (and a subsequent read returns) 1; updating with max_tokens 1 stores
100; in general a supplied temperature is written as `min 1 (max 0 t)` —
a value in `[0, 1]` — and a supplied max_tokens as `max 100 (min 2000 mt)`
— a value in `[100, 2000]`; while a read returns whatever the file holds,
unclamped. -/
theorem claim_c7_clamping :
    ∀ (env_model : Option String) (raw : RawSettings) (u : SettingsUpdate)
      (t : ℚ) (mt : ℤ),
      (get_settings env_model
        (apply_update ⟨none, none, some 5, none, none, none⟩ raw)).temperature = 1
      ∧ (get_settings env_model
        (apply_update ⟨none, none, none, some 1, none, none⟩ raw)).max_tokens = 100
      ∧ (u.temperature = some t →
          (apply_update u raw).temperature = some (min 1 (max 0 t))
          ∧ 0 ≤ min 1 (max 0 t) ∧ min 1 (max 0 t) ≤ 1)
      ∧ (u.max_tokens = some mt →
          (apply_update u raw).max_tokens = some (max 100 (min 2000 mt))
          ∧ 100 ≤ max 100 (min 2000 mt) ∧ max 100 (min 2000 mt) ≤ 2000)
      ∧ (∀ t0, raw.temperature = some t0 →
          (get_settings env_model raw).temperature = t0)
      ∧ (∀ m0, raw.max_tokens = some m0 →
          (get_settings env_model raw).max_tokens = m0) := by
  intro env raw u t mt
  refine ⟨?_, ?_, ?_, ?_, ?_, ?_⟩
  · rw [get_settings, apply_update_temperature]
    norm_num
  · rw [get_settings, apply_update_max_tokens]
    norm_num
  · intro ht
    refine ⟨by rw [apply_update_temperature, ht], ?_, min_le_left _ _⟩
    exact le_min (by norm_num) (le_max_left _ _)
  · intro hmt
    refine ⟨by rw [apply_update_max_tokens, hmt], le_max_left _ _, ?_⟩
    exact max_le (by norm_num) (min_le_left _ _)
  · intro t0 ht0
    rw [get_settings, ht0]
    rfl
  · intro m0 hm0
    rw [get_settings, hm0]
    rfl

/-- Closed instance of C7 on a concrete out-of-range file state and update. -/
theorem claim_c7_clamping_witness :
    (get_settings none (apply_update ⟨none, none, some 5, none, none, none⟩
      ⟨none, none, some 42, some 7, none, none⟩)).temperature = 1
    ∧ (get_settings none (apply_update ⟨none, none, none, some 1, none, none⟩
      ⟨none, none, some 42, some 7, none, none⟩)).max_tokens = 100
    ∧ (apply_update ⟨none, none, some 5, some 1, none, none⟩
        ⟨none, none, some 42, some 7, none, none⟩).temperature = some (min 1 (max 0 5))
    ∧ (apply_update ⟨none, none, some 5, some 1, none, none⟩
        ⟨none, none, some 42, some 7, none, none⟩).max_tokens = some (max 100 (min 2000 1))
    ∧ (get_settings none ⟨none, none, some 42, some 7, none, none⟩).temperature = 42
    ∧ (get_settings none ⟨none, none, some 42, some 7, none, none⟩).max_tokens = 7 := by
  have h := claim_c7_clamping none ⟨none, none, some 42, some 7, none, none⟩
    ⟨none, none, some 5, some 1, none, none⟩ 5 1
  exact ⟨h.1, h.2.1, (h.2.2.1 rfl).1, (h.2.2.2.1 rfl).1,
    h.2.2.2.2.1 42 rfl, h.2.2.2.2.2 7 rfl⟩

/-- **C8.** Preset precedence: supplying both a custom `system_prompt` and
the valid preset `concise` in one update stores the concise preset text, not
the custom prompt (the preset block runs after the system_prompt block and
overwrites it); in general, any supplied known preset determines the stored
`system_prompt`. -/
theorem claim_c8_preset_precedence :
    ∀ (env_model : Option String) (raw : RawSettings) (custom : String)
      (u : SettingsUpdate) (p text : String),
      (apply_update ⟨some custom, none, none, none, some "concise", none⟩
        raw).system_prompt = some CONCISE_PRESET_PROMPT
      ∧ (get_settings env_model
          (apply_update ⟨some custom, none, none, none, some "concise", none⟩
            raw)).system_prompt = CONCISE_PRESET_PROMPT
      ∧ (u.preset = some p → PROMPT_PRESETS p = some text →
          (apply_update u raw).system_prompt = some text) := by
  intro env raw custom u p text
  have hgen : ∀ (u' : SettingsUpdate) (r : RawSettings) (p' t' : String),
      u'.preset = some p' → PROMPT_PRESETS p' = some t' →
      (apply_update u' r).system_prompt = some t' := by
    intro u' r p' t' hp hpp
    rw [apply_update, upd_voice_system_prompt,
      upd_preset_of_known u' _ p' t' hp hpp]
  have hconcise := hgen ⟨some custom, none, none, none, some "concise", none⟩
    raw "concise" CONCISE_PRESET_PROMPT rfl rfl
  refine ⟨hconcise, ?_, hgen u raw p text⟩
  rw [get_settings, hconcise]
  rfl

/-- Closed instance of C8 at two concrete updates. -/
theorem claim_c8_preset_precedence_witness :
    (apply_update ⟨some "custom", none, none, none, some "concise", none⟩
      emptyRaw).system_prompt = some CONCISE_PRESET_PROMPT
    ∧ (apply_update ⟨none, none, none, none, some "empathetic", none⟩
      emptyRaw).system_prompt = some EMPATHETIC_PRESET_PROMPT :=
  ⟨(claim_c8_preset_precedence none emptyRaw "custom"
      ⟨none, none, none, none, some "empathetic", none⟩ "empathetic"
      EMPATHETIC_PRESET_PROMPT).1,
   (claim_c8_preset_precedence none emptyRaw "custom"
      ⟨none, none, none, none, some "empathetic", none⟩ "empathetic"
      EMPATHETIC_PRESET_PROMPT).2.2 rfl rfl⟩

/-- **C10.** An update supplying an unknown preset name raises nothing and
behaves exactly as the same update with no preset at all: the stored preset
is unchanged, no preset text overwrites `system_prompt` (a custom
`system_prompt` supplied in the same call is still applied), and every other
field is processed normally. -/
theorem claim_c10_unknown_preset_ignored :
    ∀ (raw : RawSettings) (u : SettingsUpdate) (p : String),
      u.preset = some p → PROMPT_PRESETS p = none →
      apply_update u raw =
        apply_update ⟨u.system_prompt, u.model, u.temperature, u.max_tokens,
          none, u.voice⟩ raw
      ∧ (apply_update u raw).preset = raw.preset
      ∧ (∀ sp, u.system_prompt = some sp →
          (apply_update u raw).system_prompt = some sp) := by
  intro raw u p hp hpp
  have hsame : ∀ r : RawSettings,
      upd_preset ⟨u.system_prompt, u.model, u.temperature, u.max_tokens,
        none, u.voice⟩ r = r := fun _ => rfl
  have heq : apply_update u raw =
      apply_update ⟨u.system_prompt, u.model, u.temperature, u.max_tokens,
        none, u.voice⟩ raw := by
    rw [apply_update, apply_update, upd_preset_of_unknown u _ p hp hpp, hsame]
    rfl
  refine ⟨heq, ?_, ?_⟩
  · rw [apply_update, upd_voice_preset, upd_preset_of_unknown u _ p hp hpp,
      upd_max_tokens_preset, upd_temperature_preset, upd_model_preset,
      upd_system_prompt_preset]
  · intro sp hsp
    rw [apply_update, upd_voice_system_prompt,
      upd_preset_of_unknown u _ p hp hpp, upd_max_tokens_system_prompt,
      upd_temperature_system_prompt, upd_model_system_prompt,
      upd_system_prompt, hsp]

/-- Closed instance of C10 at the unknown preset name `bogus`. -/
theorem claim_c10_unknown_preset_ignored_witness :
    apply_update ⟨some "x", none, none, none, some "bogus", none⟩ emptyRaw =
      apply_update ⟨some "x", none, none, none, none, none⟩ emptyRaw
    ∧ (apply_update ⟨some "x", none, none, none, some "bogus", none⟩
        emptyRaw).preset = emptyRaw.preset
    ∧ (apply_update ⟨some "x", none, none, none, some "bogus", none⟩
        emptyRaw).system_prompt = some "x" := by
  have h := claim_c10_unknown_preset_ignored emptyRaw
    ⟨some "x", none, none, none, some "bogus", none⟩ "bogus" rfl rfl
  exact ⟨h.1, h.2.1, h.2.2 "x" rfl⟩

/-- **C9.** `get_or_create_session` on `None` or on an id not in the store
returns the freshly allocated id (which did not previously exist and, the
uuid being fresh, is not the supplied unknown id); on an id present in the
store (session ids are never empty) it returns that id with the store
untouched. -/
theorem claim_c9_get_or_create_session :
    ∀ (st : Sessions) (fresh sid : String),
      hasSession st fresh = false →
      ((get_or_create_session fresh st none).1 = fresh
        ∧ hasSession (get_or_create_session fresh st none).2 fresh = true)
      ∧ (hasSession st sid = false →
          (get_or_create_session fresh st (some sid)).1 = fresh
          ∧ hasSession (get_or_create_session fresh st (some sid)).2 fresh = true
          ∧ (sid ≠ fresh → (get_or_create_session fresh st (some sid)).1 ≠ sid))
      ∧ (sid ≠ "" → hasSession st sid = true →
          get_or_create_session fresh st (some sid) = (sid, st)) := by
  intro st fresh sid _
  refine ⟨⟨rfl, ?_⟩, ?_, ?_⟩
  · simp [get_or_create_session, create_session, hasSession]
  · intro hsid
    have hcond : ¬(sid ≠ "" ∧ hasSession st sid) := by
      intro h
      rw [hsid] at h
      exact absurd h.2 (by simp)
    refine ⟨?_, ?_, ?_⟩
    · simp only [get_or_create_session]
      rw [if_neg hcond]
      rfl
    · simp only [get_or_create_session]
      rw [if_neg hcond]
      simp [create_session, hasSession]
    · intro hne
      simp only [get_or_create_session]
      rw [if_neg hcond]
      exact fun h => hne h.symm
  · intro hne hin
    have hcond : sid ≠ "" ∧ hasSession st sid := ⟨hne, by rw [hin]⟩
    simp [get_or_create_session, hcond]

/-- Closed instance of C9 on a one-session store. -/
theorem claim_c9_get_or_create_session_witness :
    (get_or_create_session "b" [("a", ([] : List Message))] none).1 = "b"
    ∧ (get_or_create_session "b" [("a", ([] : List Message))] (some "u")).1 = "b"
    ∧ (get_or_create_session "b" [("a", ([] : List Message))] (some "u")).1 ≠ "u"
    ∧ get_or_create_session "b" [("a", ([] : List Message))] (some "a")
        = ("a", [("a", ([] : List Message))]) :=
  ⟨(claim_c9_get_or_create_session [("a", [])] "b" "u" (by decide)).1.1,
   ((claim_c9_get_or_create_session [("a", [])] "b" "u" (by decide)).2.1
      (by decide)).1,
   ((claim_c9_get_or_create_session [("a", [])] "b" "u" (by decide)).2.1
      (by decide)).2.2 (by decide),
   (claim_c9_get_or_create_session [("a", [])] "b" "a" (by decide)).2.2
      (by decide) (by decide)⟩

lemma filterMap_eq_filter_map_messages (l : List Message) :
    (l.filterMap fun item =>
      if item.content = "" then none
      else some (⟨if item.role = "assistant" then "model" else "user",
        [item.content]⟩ : GeminiMsg))
    = (l.filter (fun mes => mes.content ≠ "")).map
        (fun mes => ⟨if mes.role = "assistant" then "model" else "user",
          [mes.content]⟩) := by
  induction l with
  | nil => rfl
  | cons a rest ih =>
    by_cases hc : a.content = ""
    · simp [List.filterMap_cons, List.filter_cons, hc, ih]
    · simp [List.filterMap_cons, List.filter_cons, hc, ih]

lemma chat_loop_oracle_congr (o1 o2 : GeminiPayload → String → GeminiResult)
    (payload : GeminiPayload) (model : String)
    (h : ∀ mn, o1 payload mn = o2 payload mn) :
    ∀ (cands : List String) (last404 : Option String),
      chat_loop o1 payload model cands last404
        = chat_loop o2 payload model cands last404 := by
  intro cands
  induction cands with
  | nil => intro _; rfl
  | cons a rest ih =>
    intro last404
    simp only [chat_loop, h a, ih]

/-- **C6 fails as stated.** The claim asks for the FULL prior history in the
payload, but `get_chat_response` drops any history entry whose content is
empty (`if content:`): for the educational question `hi` and a history
holding one empty-content user message, the payload contents differ from the
full history mapped turn-by-turn followed by the question. -/
theorem claim_c6_counterexample :
    classify_question "hi" = .educational
    ∧ (build_payload (get_settings none emptyRaw) "hi"
        [⟨"user", ""⟩]).contents ≠
      ([(⟨"user", ""⟩ : Message)].map
        (fun mes => (⟨if mes.role = "assistant" then "model" else "user",
          [mes.content]⟩ : GeminiMsg)))
      ++ [⟨"user", ["hi"]⟩] := by
  constructor
  · decide
  · decide

/-- **C6 (amended).** For every educational question the payload built by
`get_chat_response` carries the configured system prompt as the separate
instruction field, the configured temperature and max-token generation
parameters, and — as its conversation — the prior history entries WITH
NON-EMPTY CONTENT, in order, mapped to `model` (assistant) / `user` roles,
followed by the new question as the final `user` turn.  Moreover, with a
key configured, `get_chat_response` consults the network only at this
payload: two networks that agree on it yield identical responses. -/
theorem claim_c6_payload_amended :
    ∀ (settings : Settings) (q : String) (history : List Message),
      (build_payload settings q history).systemInstruction
        = settings.system_prompt
      ∧ (build_payload settings q history).generationConfig
        = ⟨settings.temperature, settings.max_tokens⟩
      ∧ (build_payload settings q history).contents
        = (history.filter (fun mes => mes.content ≠ "")).map
            (fun mes => ⟨if mes.role = "assistant" then "model" else "user",
              [mes.content]⟩)
          ++ [⟨"user", [q]⟩]
      ∧ (∀ (api_key : String) (o1 o2 : GeminiPayload → String → GeminiResult),
          api_key ≠ "" → classify_question q = .educational →
          (∀ mn, o1 (build_payload settings q history) mn
            = o2 (build_payload settings q history) mn) →
          get_chat_response api_key settings o1 q history
            = get_chat_response api_key settings o2 q history) := by
  intro settings q history
  refine ⟨rfl, rfl, ?_, ?_⟩
  · rw [build_payload, build_messages, filterMap_eq_filter_map_messages]
  · intro api_key o1 o2 hkey hedu hagree
    simp only [get_chat_response, if_neg hkey, hedu]
    exact chat_loop_oracle_congr o1 o2 (build_payload settings q history)
      settings.model hagree (_candidate_models settings.model) none

/-- Closed instance of the amended C6 at a two-entry history (one entry
empty, hence dropped) and identical networks. -/
theorem claim_c6_payload_amended_witness :
    (build_payload (get_settings none emptyRaw) "hi"
        [⟨"assistant", "yo"⟩, ⟨"user", ""⟩]).contents
      = (([⟨"assistant", "yo"⟩, ⟨"user", ""⟩] : List Message).filter
          (fun mes => mes.content ≠ "")).map
          (fun mes => ⟨if mes.role = "assistant" then "model" else "user",
            [mes.content]⟩)
        ++ [⟨"user", ["hi"]⟩]
    ∧ get_chat_response "k" (get_settings none emptyRaw) (fun _ _ => .failure)
        "hi" [⟨"assistant", "yo"⟩, ⟨"user", ""⟩]
      = get_chat_response "k" (get_settings none emptyRaw) (fun _ _ => .failure)
        "hi" [⟨"assistant", "yo"⟩, ⟨"user", ""⟩] :=
  ⟨(claim_c6_payload_amended (get_settings none emptyRaw) "hi"
      [⟨"assistant", "yo"⟩, ⟨"user", ""⟩]).2.2.1,
   (claim_c6_payload_amended (get_settings none emptyRaw) "hi"
      [⟨"assistant", "yo"⟩, ⟨"user", ""⟩]).2.2.2 "k" _ _
      (by decide) (by decide) (fun _ => rfl)⟩

end DigitalChat
